import Mathlib

/-!
Shallow embedding of `examples/animatediff/ad/modules/attention.py` (mindone).

Tensors are total functions from typed index spaces (`Fin`) to rationals, so
shape contracts of the source are carried by the types.  Element precision
(float16 / float32) is tracked as a separate tag on each tensor, with casts
(`Tensor.to`, `to_float`) modelled as tag changes; rounding is not modelled,
which is adequate for the structural and dispatch properties verified here.
Non-representable scalar functions of the runtime (exp inside softmax, the
`dim_head ** -0.5` scale, GELU) are abstracted into a `NumOps` record, and the
backend flash-attention kernel — an external collaborator of this module — is
an arbitrary function parameter.  Python attribute errors are modelled by an
`Except` result together with explicit lists of the attribute names that each
class's `__init__` actually binds; an attribute access in `construct` is a
lookup in that list.
-/

namespace Mindone

/-- Element precision of a tensor: the two floating point types this module
uses (`ms.float16` / `ms.float32`). -/
inductive DType where
  | f16
  | f32
deriving DecidableEq

/-- MindSpore type promotion for binary elementwise ops, restricted to the two
precisions used here: float32 wins. -/
def DType.promote : DType → DType → DType
  | .f32, _ => .f32
  | _, .f32 => .f32
  | _, _ => .f16

/-- Attribute names that appear in attribute lookups relevant to this module.
Only the names the `construct` bodies read (and the subset of `__init__`
bindings needed to decide those lookups) are represented. -/
inductive AttrName where
  | softmaxAttr
  | transposeAttr
  | scaleAttr
  | headsAttr
  | reshapeAttr
deriving DecidableEq

/-- The runtime classes whose attribute lookups we model. -/
inductive PyClass where
  | attention
  | crossFrameAttention
deriving DecidableEq

/-- A synchronous Python failure: `AttributeError` raised when `construct`
reads an attribute its class never defined, or `ZeroDivisionError` raised by
an integer division `//` with a zero divisor. -/
inductive PyErr where
  | attributeError (cls : PyClass) (attr : AttrName)
  | zeroDivisionError
deriving DecidableEq

/-- Scalar functions of the runtime that have no exact rational counterpart.
They are kept abstract: every theorem below holds for an arbitrary
interpretation. `rsqrt n` stands for `n ** -0.5` (the attention scale),
`exp` for the exponential inside `ops.Softmax`, `gelu` for `ops.GeLU`. -/
structure NumOps where
  exp : ℚ → ℚ
  rsqrt : ℕ → ℚ
  gelu : ℚ → ℚ

/-- Rank-3 tensor data of shape `(b, n, c)`. -/
def TT3 (b n c : ℕ) : Type := Fin b → Fin n → Fin c → ℚ

/-- Rank-4 tensor data of shape `(a, b, c, d)`. -/
def TT4 (a b c d : ℕ) : Type := Fin a → Fin b → Fin c → Fin d → ℚ

/-- Rank-3 tensor with its element dtype. -/
structure DT3 (b n c : ℕ) where
  dtype : DType
  data : TT3 b n c

/-- Rank-4 tensor with its element dtype. -/
structure DT4 (b n c d : ℕ) where
  dtype : DType
  data : TT4 b n c d

/-- Row-major pairing of two indices: the flat position of `(i, j)` in an
array whose two trailing dimensions are `m, n`. This is the index arithmetic
underlying `ops.reshape` between `(… , m*n)` and `(…, m, n)`. -/
def finPair {m n : ℕ} (i : Fin m) (j : Fin n) : Fin (m * n) :=
  ⟨i.val * n + j.val, by
    calc i.val * n + j.val < i.val * n + n := Nat.add_lt_add_left j.isLt _
      _ = (i.val + 1) * n := by ring
      _ ≤ m * n := Nat.mul_le_mul_right _ (Nat.succ_le_of_lt i.isLt)⟩

/-- `ops.reshape (b, n, h*d) -> (b, n, h, d)`: split the last axis. -/
def reshapeSplitLast {b n : ℕ} (h d : ℕ) (x : TT3 b n (h * d)) : TT4 b n h d :=
  fun i j p q => x i j (finPair p q)

/-- `ops.transpose (0, 2, 1, 3)` on a rank-4 tensor. -/
def transpose0213 {a b c d : ℕ} (x : TT4 a b c d) : TT4 a c b d :=
  fun i p j q => x i j p q

/-- `ops.reshape (b, h, n, d) -> (b*h, n, d)`: fold heads into batch. -/
def reshapeMergeBatch {b h n d : ℕ} (x : TT4 b h n d) : TT3 (b * h) n d :=
  fun i j q => x i.divNat i.modNat j q

/-- `ops.reshape (b*h, n, d) -> (b, h, n, d)`: unfold batch into heads. -/
def reshapeSplitBatch {b h n d : ℕ} (x : TT3 (b * h) n d) : TT4 b h n d :=
  fun i p j q => x (finPair i p) j q

/-- `ops.reshape (b, n, h, d) -> (b, n, h*d)`: merge the two trailing axes. -/
def reshapeMergeLast {b n h d : ℕ} (x : TT4 b n h d) : TT3 b n (h * d) :=
  fun i j c => x i j c.divNat c.modNat

namespace CrossAttention

/-- `CrossAttention._rearange_in`: `(b, n, h*d) -> (b*h, n, d)`, the exact
reshape/transpose/reshape chain of the source (lines 154-163). -/
def rearange_in {b n : ℕ} (h d : ℕ) (x : TT3 b n (h * d)) : TT3 (b * h) n d :=
  reshapeMergeBatch (transpose0213 (reshapeSplitLast h d x))

/-- `CrossAttention._rearange_out`: `(b*h, n, d) -> (b, n, h*d)`, the exact
reshape/transpose/reshape chain of the source (lines 165-174). -/
def rearange_out {b n : ℕ} (h d : ℕ) (x : TT3 (b * h) n d) : TT3 b n (h * d) :=
  reshapeMergeLast (transpose0213 (reshapeSplitBatch x))

/-- Dtype-carrying version of `_rearange_in` (reshape/transpose preserve the
element type). -/
def rearange_inD {b n : ℕ} (h d : ℕ) (x : DT3 b n (h * d)) : DT3 (b * h) n d :=
  ⟨x.dtype, rearange_in h d x.data⟩

/-- Dtype-carrying version of `_rearange_out`. -/
def rearange_outD {b n : ℕ} (h d : ℕ) (x : DT3 (b * h) n d) : DT3 b n (h * d) :=
  ⟨x.dtype, rearange_out h d x.data⟩

end CrossAttention

/-- Batched matrix product `ops.matmul` on `(b, n, m) x (b, m, p)`. -/
def matmul3 {b n m p : ℕ} (x : TT3 b n m) (y : TT3 b m p) : TT3 b n p :=
  fun i j l => ∑ r : Fin m, x i j r * y i r l

/-- `ops.transpose(k, (0, 2, 1))`. -/
def transpose021 {b n c : ℕ} (x : TT3 b n c) : TT3 b c n :=
  fun i l j => x i j l

/-- Tensor-times-scalar (`sim * self.scale`). -/
def smul3 {b n c : ℕ} (x : TT3 b n c) (a : ℚ) : TT3 b n c :=
  fun i j l => x i j l * a

/-- Elementwise addition of two rank-3 tensors (residual connections), with
MindSpore dtype promotion. -/
def addDT {b n c : ℕ} (x y : DT3 b n c) : DT3 b n c :=
  ⟨x.dtype.promote y.dtype, fun i j l => x.data i j l + y.data i j l⟩

/-- Elementwise addition of two rank-4 tensors. -/
def addDT4 {b n c d : ℕ} (x y : DT4 b n c d) : DT4 b n c d :=
  ⟨x.dtype.promote y.dtype, fun i j l r => x.data i j l r + y.data i j l r⟩

/-- `Tensor.to(dtype)`: cast, modelled as a dtype-tag change. -/
def setDT {b n c : ℕ} (dt : DType) (x : DT3 b n c) : DT3 b n c :=
  ⟨dt, x.data⟩

/-- `ops.Softmax(axis=-1)`: normalize over the last (key) axis. -/
def softmaxLast (P : NumOps) {b n m : ℕ} (s : TT3 b n m) : TT3 b n m :=
  fun i j l => P.exp (s i j l) / ∑ r : Fin m, P.exp (s i j r)

/-- `nn.Dense(i, o, has_bias=False).to_float(dt)`: `y = x @ W.T`, computed in
the cell's dtype (the linear projection collaborator of the spec). -/
def dense {b n i o : ℕ} (dt : DType) (W : Fin o → Fin i → ℚ) (x : DT3 b n i) :
    DT3 b n o :=
  ⟨dt, fun β j oi => ∑ ii : Fin i, x.data β j ii * W oi ii⟩

/-- `nn.Dense(i, o).to_float(dt)` with bias: `y = x @ W.T + b`. -/
def denseB {b n i o : ℕ} (dt : DType) (W : Fin o → Fin i → ℚ) (bias : Fin o → ℚ)
    (x : DT3 b n i) : DT3 b n o :=
  ⟨dt, fun β j oi => (∑ ii : Fin i, x.data β j ii * W oi ii) + bias oi⟩

/-- An attention mask as passed by callers. Its shape is unconstrained by the
signature (the code broadcasts / reshapes it), so the dimensions travel with
the value. -/
structure MaskT where
  bm : ℕ
  nm : ℕ
  km : ℕ
  val : Fin bm → Fin nm → Fin km → Bool

/-- A numeric mask as consumed by the flash-attention kernel (after
`mask.to(self.fa_mask_dtype)`), shape-erased like `MaskT`. -/
structure MaskNum where
  bm : ℕ
  nm : ℕ
  km : ℕ
  val : Fin bm → Fin nm → Fin km → ℚ

/-- `mask.to(self.fa_mask_dtype)`: booleans become 0/1 numerics. -/
def maskToNum (m : MaskT) : MaskNum :=
  ⟨m.bm, m.nm, m.km, fun i j l => if m.val i j l then 1 else 0⟩

/-- The external accelerated attention kernel
(`mindspore.nn.layer.flash_attention.FlashAttention`): an arbitrary function
of `(q, k, v, mask)` in the `(b, heads, n, d)` layout. All theorems hold for
every interpretation. -/
def FlashKernel : Type :=
  ∀ (b h n k d : ℕ), TT4 b h n d → TT4 b h k d → TT4 b h k d → MaskNum → TT4 b h n d

namespace Attention

/-- The attributes `Attention.__init__` binds on `self` (lines 291-295):
`softmax`, `transpose`, `scale`. This is the complete set; in particular
neither `reshape` nor `heads` is ever defined. -/
def definedAttrs : List AttrName := [.softmaxAttr, .transposeAttr, .scaleAttr]

/-- Largest finite float16 value (65504) as an exact rational. -/
def maxFiniteF16 : ℚ := 65504

/-- Largest finite float32 value `(2^24 - 1) * 2^104` as an exact rational. -/
def maxFiniteF32 : ℚ := (2 ^ 24 - 1) * 2 ^ 104

/-- `Attention.construct(q, k, v, mask)` (lines 297-318), parameterized by the
list of attributes defined on `self` so that the hypothetical "attributes
present" variant shares this body. `dimHead` is the `dim_head` constructor
argument (`self.scale = dim_head ** -0.5`). The mask branch: `self.reshape`
and `self.heads` are attribute lookups; `sim.masked_fill(mask, max_neg_value)`
returns a fresh tensor that the source never assigns, so even with the
attributes present the softmax consumes the unmasked `sim`. -/
def constructWith (attrs : List AttrName) (P : NumOps) (dimHead : ℕ)
    {b nq nk d : ℕ} (q : DT3 b nq d) (k v : DT3 b nk d) (mask : Option MaskT) :
    Except PyErr (DT3 b nq d) :=
  let sim : DT3 b nq nk :=
    ⟨q.dtype.promote k.dtype, smul3 (matmul3 q.data (transpose021 k.data)) (P.rsqrt dimHead)⟩
  match mask with
  | none =>
      let attn := softmaxLast P sim.data
      .ok ⟨sim.dtype.promote v.dtype, matmul3 attn v.data⟩
  | some m =>
      if attrs.contains .reshapeAttr then
        -- mask = self.reshape(mask, (mask.shape[0], -1)) : rebinding of the
        -- local `mask`, never read by any later assignment to `sim`
        let _mflat := m
        -- max_neg_value = -np.finfo(float16|float32).max, per sim's dtype
        let _maxNeg : ℚ :=
          if sim.dtype = DType.f16 then -maxFiniteF16 else -maxFiniteF32
        if attrs.contains .headsAttr then
          -- mask.repeat(self.heads, axis=0); ops.expand_dims(mask, 1);
          -- sim.masked_fill(mask, max_neg_value) -- result discarded (line 309)
          let attn := softmaxLast P sim.data
          .ok ⟨sim.dtype.promote v.dtype, matmul3 attn v.data⟩
        else .error (.attributeError .attention .headsAttr)
      else .error (.attributeError .attention .reshapeAttr)

/-- `Attention.construct` as the class actually is. -/
def construct (P : NumOps) (dimHead : ℕ) {b nq nk d : ℕ} (q : DT3 b nq d)
    (k v : DT3 b nk d) (mask : Option MaskT) : Except PyErr (DT3 b nq d) :=
  constructWith definedAttrs P dimHead q k v mask

/-- Hypothetical `Attention.construct` with `self.reshape` and `self.heads`
additionally defined — used only to settle what the mask branch would compute
were the missing attributes present. -/
def constructIfAttrsDefined (P : NumOps) (dimHead : ℕ) {b nq nk d : ℕ}
    (q : DT3 b nq d) (k v : DT3 b nk d) (mask : Option MaskT) :
    Except PyErr (DT3 b nq d) :=
  constructWith (definedAttrs ++ [.reshapeAttr, .headsAttr]) P dimHead q k v mask

end Attention

/-- The spec's formula for unmasked attention (§4.1): softmax over the key
axis of `matmul(q, transpose(k)) * D^-0.5`, then `matmul` with `v`, where `D`
is the head dimension of the inputs. -/
def attendSpec (P : NumOps) {b nq nk d : ℕ} (q : TT3 b nq d) (k v : TT3 b nk d) :
    TT3 b nq d :=
  matmul3 (softmaxLast P (smul3 (matmul3 q (transpose021 k)) (P.rsqrt d))) v

namespace CrossAttention

/-- Learned state of a `CrossAttention` cell (`__init__`, lines 114-152):
projections `to_q : qd -> h*dh` (no bias), `to_k`, `to_v : cd -> h*dh`
(no bias), `to_out[0] : h*dh -> qd` (with bias; `to_out[1]` is
`Dropout(p = 1 - 1.0) = identity`), the cell compute dtype, and
`enable_flash_attention` — already conjoined in `__init__` with
`FLASH_IS_AVAILABLE` and the backend being Ascend, so a single flag here.
`context_dim` defaults to `query_dim` at construction; a self-attention cell
therefore has `cd = qd`. -/
structure Cell (qd cd h dh : ℕ) where
  dtype : DType
  enableFlash : Bool
  Wq : Fin (h * dh) → Fin qd → ℚ
  Wk : Fin (h * dh) → Fin cd → ℚ
  Wv : Fin (h * dh) → Fin cd → ℚ
  Wout : Fin qd → Fin (h * dh) → ℚ
  bout : Fin qd → ℚ

/-- The common tail of `construct` (line 218): `self.to_out(out).to(x_dtype)`
— output projection (+ identity dropout) and the cast back to the input's
original element dtype. -/
def tail {qd cd h dh : ℕ} (A : Cell qd cd h dh) {b nq : ℕ} (xDt : DType)
    (out : DT3 b nq (h * dh)) : DT3 b nq qd :=
  setDT xDt (denseB A.dtype A.Wout A.bout out)

/-- The generic branch of `CrossAttention.construct` (lines 208-216 plus the
common tail): head-fold q, k, v, run `Attention.construct` (a cell built with
`dim_head = dh`), head-unfold, project, cast. -/
def genericPath (P : NumOps) {qd cd h dh : ℕ} (A : Cell qd cd h dh)
    {b nq nk : ℕ} (x : DT3 b nq qd) (ctx : DT3 b nk cd) (mask : Option MaskT) :
    Except PyErr (DT3 b nq qd) :=
  (Attention.construct P dh
      (rearange_inD h dh (dense A.dtype A.Wq x))
      (rearange_inD h dh (dense A.dtype A.Wk ctx))
      (rearange_inD h dh (dense A.dtype A.Wv ctx)) mask).map
    (fun out => tail A x.dtype (rearange_outD h dh out))

/-- `CrossAttention.construct(x, context, mask)` (lines 176-218) after the
`context = default(context, x)` resolution: dispatch between the accelerated
kernel and the generic path. The dispatch condition is the source's:
`self.enable_flash_attention and q_n % 16 == 0 and k_n % 16 == 0 and
head_dim <= 128`, with `head_dim = q.shape[-1] // self.heads`. The flash
branch reshapes q, k, v to the `(b, h, n, d)` layout, synthesizes an all-zero
`(b, nq, nq)` mask when none is given, casts to float16, runs the kernel, and
reassembles. -/
def constructOn (P : NumOps) (FA : FlashKernel) {qd cd h dh : ℕ}
    (A : Cell qd cd h dh) {b nq nk : ℕ} (x : DT3 b nq qd) (ctx : DT3 b nk cd)
    (mask : Option MaskT) : Except PyErr (DT3 b nq qd) :=
  if A.enableFlash = true ∧ nq % 16 = 0 ∧ nk % 16 = 0 ∧ (h * dh) / h ≤ 128 then
    let q := dense A.dtype A.Wq x
    let k := dense A.dtype A.Wk ctx
    let v := dense A.dtype A.Wv ctx
    -- q.view(b, n, h, -1).transpose(0, 2, 1, 3), etc.
    let q4 := transpose0213 (reshapeSplitLast h dh q.data)
    let k4 := transpose0213 (reshapeSplitLast h dh k.data)
    let v4 := transpose0213 (reshapeSplitLast h dh v.data)
    let maskArg : MaskNum :=
      match mask with
      | none => ⟨b, nq, nq, fun _ _ _ => 0⟩  -- ops.zeros((q_b, q_n, q_n), fa_mask_dtype)
      | some m => maskToNum m
    let out4 := FA b h nq nk dh q4 k4 v4 maskArg  -- inputs cast .to(float16)
    -- out.transpose(0, 2, 1, 3).view(b, n, -1); kernel output is float16
    let out : DT3 b nq (h * dh) := ⟨DType.f16, reshapeMergeLast (transpose0213 out4)⟩
    .ok (tail A x.dtype out)
  else
    genericPath P A x ctx mask

/-- `CrossAttention.construct` with the optional `context` of the source
signature, for a self-capable cell (`context_dim` defaulted to `query_dim` at
construction): `context = default(context, x)` picks `x` itself — by value —
exactly when `context` is absent. -/
def construct (P : NumOps) (FA : FlashKernel) {qd h dh : ℕ}
    (A : Cell qd qd h dh) {b nq : ℕ} (x : DT3 b nq qd)
    (context : Option (Σ nk : ℕ, DT3 b nk qd)) (mask : Option MaskT) :
    Except PyErr (DT3 b nq qd) :=
  match context with
  | some c => constructOn P FA A x c.2 mask
  | none => constructOn P FA A x x mask

end CrossAttention

namespace CrossFrameAttention

/-- The attribute names (among the represented ones) that are defined on a
`CrossFrameAttention` instance. `CrossAttention.__init__` binds `heads`,
`transpose`, `to_q`, `to_k`, `to_v`, `to_out`, `head_dim`, `attention`,
`enable_flash_attention`, `flash_attention` (and `fa_mask_dtype` when flash
is enabled); the subclass adds `unet_chunk_size`. None of them is named
`reshape`, and neither class body defines it, so `reshape` is not in this
list. -/
def definedAttrs : List AttrName := [.headsAttr, .transposeAttr]

/-- `rearange_frame(x, f)` (lines 244-248): reshape `(b, n, d)` to
`(b // f, f, n, d)`, on a batch typed as `g * f`. -/
def rearange_frame {g f n d : ℕ} (x : TT3 (g * f) n d) : TT4 g f n d :=
  fun i p j q => x (finPair i p) j q

/-- `x[:, former_frame_index]` with `former_frame_index = [0] * f` (lines
257-262): every frame slot of each group is replaced by frame 0 of that
group. -/
def indexFormerFrame {g f n d : ℕ} (x : TT4 g f n d) : TT4 g f n d :=
  fun i p j q => x i ⟨0, Nat.lt_of_le_of_lt (Nat.zero_le _) p.isLt⟩ j q

/-- `rearange_frame_back` (lines 250-253): fold the frame axis back into the
batch. -/
def rearange_frame_back {g f n d : ℕ} (x : TT4 g f n d) : TT3 (g * f) n d :=
  fun i j q => x i.divNat i.modNat j q

/-- The complete key/value substitution performed in self-attention mode
(lines 256-263), on a batch typed `g * f` with `f` the video length. -/
def frameShare {g f n d : ℕ} (x : TT3 (g * f) n d) : TT3 (g * f) n d :=
  rearange_frame_back (indexFormerFrame (rearange_frame x))

/-- The same substitution expressed by direct index arithmetic, total in the
batch size: batch element `β` reads from `β / f * f`, the first element of
its `f`-sized group. Used inside the construct model where the batch size is
not statically factored. -/
def frameShareIdx (f : ℕ) {b n d : ℕ} (x : TT3 b n d) : TT3 b n d :=
  fun β j q =>
    x ⟨β.val / f * f, Nat.lt_of_le_of_lt (Nat.div_mul_le_self _ _) β.isLt⟩ j q

/-- A 3-D tensor embedded with a singleton head axis, used to feed the 4-D
abstract kernel interface where the source passes already head-folded 3-D
tensors (line 270). -/
def lift3 {b n d : ℕ} (x : TT3 b n d) : TT4 b 1 n d := fun i _ j q => x i j q

/-- The empty mask argument of the kernel call `self.flash_attention(q, k, v)`
(line 270), which passes no mask at all. -/
def noMask : MaskNum := ⟨0, 0, 0, fun _ _ _ => 0⟩

/-- The body of `CrossFrameAttention.construct` from the head-flattening on
(lines 265-287) as it would run were `self.reshape` defined (the class never
defines it; the lookup gate sits in `construct` below): fold heads, dispatch
on the narrower fast-path gate — `self.enable_flash_attention and
q.shape[1] % 16 == 0 and k.shape[1] % 16 == 0`, with no head-dim bound and no
float16 casts — then reassemble and project through `to_out`. Unlike
`CrossAttention.construct` there is no final `.to(x_dtype)` cast: the
subclass returns `self.to_out(out)` directly. -/
def attendPart (P : NumOps) (FA : FlashKernel) {qd cd h dh : ℕ}
    (A : CrossAttention.Cell qd cd h dh) {b nq nk : ℕ}
    (q : DT3 b nq (h * dh)) (k v : DT3 b nk (h * dh)) (mask : Option MaskT) :
    Except PyErr (DT3 b nq qd) :=
  let q2 := CrossAttention.rearange_inD h dh q
  let k2 := CrossAttention.rearange_inD h dh k
  let v2 := CrossAttention.rearange_inD h dh v
  (if A.enableFlash = true ∧ nq % 16 = 0 ∧ nk % 16 = 0 then
    let out4 := FA (b * h) 1 nq nk dh (lift3 q2.data) (lift3 k2.data) (lift3 v2.data) noMask
    .ok ⟨q2.dtype, fun i j r => out4 i ⟨0, Nat.zero_lt_one⟩ j r⟩
  else
    Attention.construct P dh q2 k2 v2 mask).map
    (fun out => denseB A.dtype A.Wout A.bout (CrossAttention.rearange_outD h dh out))

/-- The cross-attention arm of `CrossFrameAttention.construct` (context
explicitly supplied, `is_cross_attention = True`): the frame substitution is
skipped and the first read of the undefined `self.reshape` happens inside
`rearange_in(q)` (line 239 via line 265). -/
def constructOnCross (P : NumOps) (FA : FlashKernel) {qd cd h dh : ℕ}
    (A : CrossAttention.Cell qd cd h dh) {b nq nk : ℕ} (x : DT3 b nq qd)
    (ctx : DT3 b nk cd) (mask : Option MaskT) : Except PyErr (DT3 b nq qd) :=
  let k := dense A.dtype A.Wk ctx
  let v := dense A.dtype A.Wv ctx
  if definedAttrs.contains .reshapeAttr then
    attendPart P FA A (dense A.dtype A.Wq x) k v mask
  else .error (.attributeError .crossFrameAttention .reshapeAttr)

/-- `CrossFrameAttention.construct(x, context, mask)` (lines 226-287).
`is_cross_attention = context is not None` is recorded before
`context = default(context, x)`; in self-attention mode the key/value batch
is regrouped by `video_length = k.shape[0] // self.unet_chunk_size`
(line 256) and every frame's k/v is replaced by its group's frame 0. Two
failures precede any attention there: first the divisions — with
`unet_chunk_size = 0` line 256 itself raises `ZeroDivisionError`, and with
`0 < unet_chunk_size` but `batch < unet_chunk_size` the video length is 0
and `b // f` inside `rearange_frame` (line 246) raises `ZeroDivisionError`;
both cases are exactly `b / chunk = 0` here (Lean division by zero being 0).
Only then comes `self.reshape` (line 247), an attribute the class never
defines, so every surviving self-attention call — and every cross-attention
call, whose first `self.reshape` read is in `rearange_in(q)` (line 239 via
line 265) — fails on the lookup gate. -/
def construct (P : NumOps) (FA : FlashKernel) (chunk : ℕ) {qd h dh : ℕ}
    (A : CrossAttention.Cell qd qd h dh) {b nq : ℕ} (x : DT3 b nq qd)
    (context : Option (Σ nk : ℕ, DT3 b nk qd)) (mask : Option MaskT) :
    Except PyErr (DT3 b nq qd) :=
  match context with
  | some c => constructOnCross P FA A x c.2 mask
  | none =>
      let k := dense A.dtype A.Wk x
      let v := dense A.dtype A.Wv x
      if b / chunk = 0 then .error .zeroDivisionError
      else if definedAttrs.contains .reshapeAttr then
        let f := b / chunk  -- video_length = k.shape[0] // self.unet_chunk_size
        attendPart P FA A (dense A.dtype A.Wq x)
          ⟨k.dtype, frameShareIdx f k.data⟩ ⟨v.dtype, frameShareIdx f v.data⟩ mask
      else .error (.attributeError .crossFrameAttention .reshapeAttr)

end CrossFrameAttention

/-- Learned state of a gated `FeedForward` cell (lines 64-81) as
`BasicTransformerBlock` builds it (`glu = gated_ff = True`): a GEGLU
projection `Dense(c, inner*2)` with bias, and the closing
`Dense(inner, c)`; the `Dropout(p = 1 - 1.0)` between them is the identity. -/
structure FFCell (c inner : ℕ) where
  dtype : DType
  Wp : Fin (inner * 2) → Fin c → ℚ
  bp : Fin (inner * 2) → ℚ
  W2 : Fin c → Fin inner → ℚ
  b2 : Fin c → ℚ

/-- Index of position `l` in the first half of a split-in-two last axis
(`ops.Split(-1, 2)`). -/
def halfL {inner : ℕ} (l : Fin inner) : Fin (inner * 2) :=
  ⟨l.val, by have := l.isLt; omega⟩

/-- Index of position `l` in the second half. -/
def halfR {inner : ℕ} (l : Fin inner) : Fin (inner * 2) :=
  ⟨inner + l.val, by have := l.isLt; omega⟩

/-- `GEGLU.construct` (lines 58-61): project to `2*inner`, split the last
axis in two, gate the first half with GELU of the second. -/
def gegluConstruct (P : NumOps) {c inner b n : ℕ} (F : FFCell c inner)
    (x : DT3 b n c) : DT3 b n inner :=
  let y := denseB F.dtype F.Wp F.bp x
  ⟨y.dtype, fun i j l => y.data i j (halfL l) * P.gelu (y.data i j (halfR l))⟩

/-- `FeedForward.construct` (line 80-81): GEGLU, identity dropout, closing
projection. -/
def feedForwardConstruct (P : NumOps) {c inner b n : ℕ} (F : FFCell c inner)
    (x : DT3 b n c) : DT3 b n c :=
  denseB F.dtype F.W2 F.b2 (gegluConstruct P F x)

/-- The construction-time choice of attention implementation inside
`BasicTransformerBlock` (lines 337-377): `CrossAttention`, or
`CrossFrameAttention` with its `unet_chunk_size`, selected by the
`cross_frame_attention` flag. -/
inductive AttnImpl (qd cd h dh : ℕ) where
  | plain (A : CrossAttention.Cell qd cd h dh)
  | frame (chunk : ℕ) (A : CrossAttention.Cell qd cd h dh)

/-- Whether the construction-time choice was plain `CrossAttention`. -/
def AttnImpl.isPlain {qd cd h dh : ℕ} : AttnImpl qd cd h dh → Bool
  | .plain _ => true
  | .frame _ _ => false

/-- `self.attn1(y)` — the self-attention sublayer call of
`BasicTransformerBlock.construct` (line 384): no context, no mask. -/
def applySelfAttn (P : NumOps) (FA : FlashKernel) {c h dh b n : ℕ} :
    AttnImpl c c h dh → DT3 b n c → Except PyErr (DT3 b n c)
  | .plain A, y => CrossAttention.construct P FA A y none none
  | .frame chunk A, y => CrossFrameAttention.construct P FA chunk A y none none

/-- `self.attn2(y, context=context)` (line 385): cross-attention when a
context is supplied, self-attention otherwise. The block's `attn2` cell was
built with `context_dim`; calling it without context is only type-correct
when that dimension defaulted to the query dimension, which the hypothesis
`hs` records. -/
def applyCrossAttn (P : NumOps) (FA : FlashKernel) {c cd h dh b n : ℕ}
    (impl : AttnImpl c cd h dh) (y : DT3 b n c)
    (context : Option (Σ nk : ℕ, DT3 b nk cd)) (hs : context = none → cd = c) :
    Except PyErr (DT3 b n c) :=
  match context, hs with
  | some ctx, _ =>
      match impl with
      | .plain A => CrossAttention.constructOn P FA A y ctx.2 none
      | .frame _ A => CrossFrameAttention.constructOnCross P FA A y ctx.2 none
  | none, hs =>
      match impl with
      | .plain A => CrossAttention.construct P FA (hs rfl ▸ A) y none none
      | .frame chunk A => CrossFrameAttention.construct P FA chunk (hs rfl ▸ A) y none none

/-- Learned state of a `BasicTransformerBlock` (lines 321-381): the two
attention sublayers (each either implementation), the gated feed-forward, and
the three `nn.LayerNorm` collaborators — shape-preserving normalization
operators owned externally (spec §6), kept abstract. -/
structure BlockCell (c cd h dh inner : ℕ) where
  attn1 : AttnImpl c c h dh
  attn2 : AttnImpl c cd h dh
  ff : FFCell c inner
  norm1 : ∀ {b n : ℕ}, DT3 b n c → DT3 b n c
  norm2 : ∀ {b n : ℕ}, DT3 b n c → DT3 b n c
  norm3 : ∀ {b n : ℕ}, DT3 b n c → DT3 b n c

/-- Whether both sublayers are plain `CrossAttention`
(`cross_frame_attention=False` at construction). -/
def BlockCell.isPlain {c cd h dh inner : ℕ} (B : BlockCell c cd h dh inner) :
    Bool :=
  B.attn1.isPlain && B.attn2.isPlain

/-- `BasicTransformerBlock.construct` (lines 383-387): pre-norm sublayers
with residual additions. -/
def blockConstruct (P : NumOps) (FA : FlashKernel) {c cd h dh inner b n : ℕ}
    (B : BlockCell c cd h dh inner) (x : DT3 b n c)
    (context : Option (Σ nk : ℕ, DT3 b nk cd)) (hs : context = none → cd = c) :
    Except PyErr (DT3 b n c) :=
  (applySelfAttn P FA B.attn1 (B.norm1 x)).bind fun a1 =>
    let x1 := addDT a1 x
    (applyCrossAttn P FA B.attn2 (B.norm2 x1) context hs).bind fun a2 =>
      let x2 := addDT a2 x1
      .ok (addDT (feedForwardConstruct P B.ff (B.norm3 x2)) x2)

/-- A 1x1 convolution / linear projection collaborator with learned weight
and bias (`nn.Conv2d(ci, co, 1, has_bias=True)` on grid tensors). -/
structure ConvCell (ci co : ℕ) where
  dtype : DType
  W : Fin co → Fin ci → ℚ
  bias : Fin co → ℚ

/-- Applying the 1x1 convolution pointwise over the grid. -/
def conv1x1 {ci co b hh w : ℕ} (m : ConvCell ci co) (x : DT4 b ci hh w) :
    DT4 b co hh w :=
  ⟨m.dtype, fun i o p q => (∑ cc : Fin ci, m.W o cc * x.data i cc p q) + m.bias o⟩

/-- `zero_module` (lines 84-92): force the projection's weight and bias to
all-zero and return it. -/
def zero_module {ci co : ℕ} (m : ConvCell ci co) : ConvCell ci co :=
  ⟨m.dtype, fun _ _ => 0, fun _ => 0⟩

/-- Lines 465-466: `reshape (b, c, h*w)` then `transpose (0, 2, 1)` — grid to
token sequence. -/
def gridToSeq {b c hh w : ℕ} (x : DT4 b c hh w) : DT3 b (hh * w) c :=
  ⟨x.dtype, fun i m p => x.data i p m.divNat m.modNat⟩

/-- Lines 473-474: `reshape (b, h, w, c)` then `transpose (0, 3, 1, 2)` —
token sequence back to grid. -/
def seqToGrid {b c hh w : ℕ} (y : DT3 b (hh * w) c) : DT4 b c hh w :=
  ⟨y.dtype, fun i r p q => y.data i (finPair p q) r⟩

/-- Learned state of a `SpatialTransformer` (lines 390-456,
`use_linear=False`, the default): the `Normalize` (GroupNorm) collaborator,
kept abstract (spec §6); the input projection; the block stack; and the
output projection, which `__init__` passes through `zero_module`. The
source's line 465 reshapes the projected tensor with the *input's* channel
count, which forces `inner_dim = in_channels`; the model reflects that with a
single channel parameter `c`. -/
structure STCell (c cd h dh inner : ℕ) where
  norm : ∀ {b hh w : ℕ}, DT4 b c hh w → DT4 b c hh w
  projIn : ConvCell c c
  blocks : List (BlockCell c cd h dh inner)
  projOut : ConvCell c c

/-- The sequential block loop (lines 469-470), the same context passed to
every block. -/
def runBlocks (P : NumOps) (FA : FlashKernel) {c cd h dh inner b n : ℕ}
    (blocks : List (BlockCell c cd h dh inner)) (x : DT3 b n c)
    (context : Option (Σ nk : ℕ, DT3 b nk cd)) (hs : context = none → cd = c) :
    Except PyErr (DT3 b n c) :=
  match blocks with
  | [] => .ok x
  | B :: rest =>
      (blockConstruct P FA B x context hs).bind fun y =>
        runBlocks P FA rest y context hs

/-- `SpatialTransformer.construct` (lines 458-477, `use_linear=False`):
normalize, project in, flatten to tokens, run the blocks, restore the grid,
project out, add the residual against the original input (`x_in = x`, saved
before normalization). -/
def stConstruct (P : NumOps) (FA : FlashKernel) {c cd h dh inner b hh w : ℕ}
    (st : STCell c cd h dh inner) (x : DT4 b c hh w)
    (context : Option (Σ nk : ℕ, DT3 b nk cd)) (hs : context = none → cd = c) :
    Except PyErr (DT4 b c hh w) :=
  (runBlocks P FA st.blocks (gridToSeq (conv1x1 st.projIn (st.norm x)))
      context hs).map fun y =>
    addDT4 (conv1x1 st.projOut (seqToGrid y)) x

/-- Fixtures for concrete evaluations: an identity interpretation of the
abstract scalar functions, a first-projection kernel, cells, blocks and
spatial transformers on 1-sized dimensions. -/
def numOps0 : NumOps := ⟨fun x => x, fun _ => 1, fun x => x⟩

def flash0 : FlashKernel := fun _ _ _ _ _ q _ _ _ => q

def caCell0 : CrossAttention.Cell 1 1 1 1 :=
  ⟨DType.f32, false, fun _ _ => 1, fun _ _ => 1, fun _ _ => 1, fun _ _ => 1,
    fun _ => 0⟩

def ffCell0 : FFCell 1 1 :=
  ⟨DType.f32, fun _ _ => 1, fun _ => 0, fun _ _ => 1, fun _ => 0⟩

/-- A block as built with `cross_frame_attention=True` (both sublayers are
`CrossFrameAttention` with `unet_chunk_size = 2`), identity norms. -/
def blockFrame0 : BlockCell 1 1 1 1 1 :=
  ⟨.frame 2 caCell0, .frame 2 caCell0, ffCell0, fun y => y, fun y => y,
    fun y => y⟩

/-- A block as built with the default `cross_frame_attention=False`. -/
def blockPlain0 : BlockCell 1 1 1 1 1 :=
  ⟨.plain caCell0, .plain caCell0, ffCell0, fun y => y, fun y => y,
    fun y => y⟩

/-- A freshly constructed `SpatialTransformer` with one cross-frame block;
its output projection went through `zero_module`. -/
def stFrame0 : STCell 1 1 1 1 1 :=
  ⟨fun y => y, ⟨DType.f32, fun _ _ => 1, fun _ => 1⟩, [blockFrame0],
    zero_module ⟨DType.f32, fun _ _ => 1, fun _ => 1⟩⟩

/-- A freshly constructed default-configuration `SpatialTransformer` with one
plain block and a `zero_module`-ed output projection. -/
def stPlain0 : STCell 1 1 1 1 1 :=
  ⟨fun y => y, ⟨DType.f32, fun _ _ => 1, fun _ => 1⟩, [blockPlain0],
    zero_module ⟨DType.f32, fun _ _ => 1, fun _ => 1⟩⟩

theorem finPair_divNat {m n : ℕ} (i : Fin m) (j : Fin n) :
    (finPair i j).divNat = i := by
  apply Fin.ext
  show (i.val * n + j.val) / n = i.val
  have hn : 0 < n := Nat.pos_of_ne_zero (by rintro rfl; exact absurd j.isLt (by simp))
  rw [Nat.mul_comm i.val n, Nat.mul_add_div hn, Nat.div_eq_of_lt j.isLt, Nat.add_zero]

theorem finPair_modNat {m n : ℕ} (i : Fin m) (j : Fin n) :
    (finPair i j).modNat = j := by
  apply Fin.ext
  show (i.val * n + j.val) % n = j.val
  rw [Nat.mul_comm, Nat.mul_add_mod, Nat.mod_eq_of_lt j.isLt]

theorem finPair_div_mod {m n : ℕ} (c : Fin (m * n)) :
    finPair c.divNat c.modNat = c := by
  apply Fin.ext
  show (c.val / n) * n + c.val % n = c.val
  rw [Nat.mul_comm, Nat.div_add_mod]

theorem CrossAttention.rearange_out_rearange_in {b n : ℕ} (h d : ℕ)
    (x : TT3 b n (h * d)) : rearange_out h d (rearange_in h d x) = x := by
  funext i j c
  show x ((finPair i c.divNat).divNat) j
      (finPair ((finPair i c.divNat).modNat) c.modNat) = x i j c
  rw [finPair_divNat, finPair_modNat, finPair_div_mod]

theorem CrossFrameAttention.cross_raises (P : NumOps) (FA : FlashKernel)
    (chunk : ℕ) {qd h dh : ℕ} (A : CrossAttention.Cell qd qd h dh) {b nq : ℕ}
    (x : DT3 b nq qd) (c : Σ nk : ℕ, DT3 b nk qd) (mask : Option MaskT) :
    construct P FA chunk A x (some c) mask =
      .error (.attributeError .crossFrameAttention .reshapeAttr) :=
  rfl

theorem CrossFrameAttention.self_zero_div_raises (P : NumOps)
    (FA : FlashKernel) (chunk : ℕ) {qd h dh : ℕ}
    (A : CrossAttention.Cell qd qd h dh) {b nq : ℕ} (x : DT3 b nq qd)
    (mask : Option MaskT) (hf : b / chunk = 0) :
    construct P FA chunk A x none mask = .error .zeroDivisionError := by
  unfold construct
  rw [if_pos hf]

theorem CrossFrameAttention.self_attr_raises (P : NumOps) (FA : FlashKernel)
    (chunk : ℕ) {qd h dh : ℕ} (A : CrossAttention.Cell qd qd h dh) {b nq : ℕ}
    (x : DT3 b nq qd) (mask : Option MaskT) (hf : b / chunk ≠ 0) :
    construct P FA chunk A x none mask =
      .error (.attributeError .crossFrameAttention .reshapeAttr) := by
  unfold construct
  rw [if_neg hf]
  rfl

theorem constructOn_none_ok (P : NumOps) (FA : FlashKernel) {qd cd h dh : ℕ}
    (A : CrossAttention.Cell qd cd h dh) {b nq nk : ℕ} (x : DT3 b nq qd)
    (ctx : DT3 b nk cd) :
    ∃ y : DT3 b nq qd,
      CrossAttention.constructOn P FA A x ctx none = .ok y ∧ y.dtype = x.dtype := by
  unfold CrossAttention.constructOn
  split
  · exact ⟨_, rfl, rfl⟩
  · exact ⟨_, rfl, rfl⟩

theorem construct_none_ok (P : NumOps) (FA : FlashKernel) {qd h dh : ℕ}
    (A : CrossAttention.Cell qd qd h dh) {b nq : ℕ} (x : DT3 b nq qd)
    (context : Option (Σ nk : ℕ, DT3 b nk qd)) :
    ∃ y : DT3 b nq qd, CrossAttention.construct P FA A x context none = .ok y := by
  cases context with
  | none =>
      obtain ⟨y, hy, -⟩ := constructOn_none_ok P FA A x x
      exact ⟨y, hy⟩
  | some c =>
      obtain ⟨y, hy, -⟩ := constructOn_none_ok P FA A x c.2
      exact ⟨y, hy⟩

theorem applySelfAttn_ok (P : NumOps) (FA : FlashKernel) {c h dh b n : ℕ}
    (impl : AttnImpl c c h dh) (himpl : impl.isPlain = true) (y : DT3 b n c) :
    ∃ z : DT3 b n c, applySelfAttn P FA impl y = .ok z := by
  cases impl with
  | plain A => exact construct_none_ok P FA A y none
  | frame chunk A => exact absurd himpl (by simp [AttnImpl.isPlain])

theorem applyCrossAttn_ok (P : NumOps) (FA : FlashKernel) {c cd h dh b n : ℕ}
    (impl : AttnImpl c cd h dh) (himpl : impl.isPlain = true) (y : DT3 b n c)
    (context : Option (Σ nk : ℕ, DT3 b nk cd)) (hs : context = none → cd = c) :
    ∃ z : DT3 b n c, applyCrossAttn P FA impl y context hs = .ok z := by
  cases context with
  | some ctx =>
      cases impl with
      | plain A =>
          obtain ⟨z, hz, -⟩ := constructOn_none_ok P FA A y ctx.2
          exact ⟨z, hz⟩
      | frame chunk A => exact absurd himpl (by simp [AttnImpl.isPlain])
  | none =>
      cases impl with
      | plain A => exact construct_none_ok P FA (hs rfl ▸ A) y none
      | frame chunk A => exact absurd himpl (by simp [AttnImpl.isPlain])

theorem blockConstruct_ok (P : NumOps) (FA : FlashKernel)
    {c cd h dh inner b n : ℕ} (B : BlockCell c cd h dh inner)
    (hB : B.isPlain = true) (x : DT3 b n c)
    (context : Option (Σ nk : ℕ, DT3 b nk cd)) (hs : context = none → cd = c) :
    ∃ y : DT3 b n c, blockConstruct P FA B x context hs = .ok y := by
  obtain ⟨h1, h2⟩ := Bool.and_eq_true_iff.mp hB
  obtain ⟨a1, ha1⟩ := applySelfAttn_ok P FA B.attn1 h1 (B.norm1 x)
  obtain ⟨a2, ha2⟩ :=
    applyCrossAttn_ok P FA B.attn2 h2 (B.norm2 (addDT a1 x)) context hs
  refine ⟨addDT (feedForwardConstruct P B.ff (B.norm3 (addDT a2 (addDT a1 x))))
      (addDT a2 (addDT a1 x)), ?_⟩
  unfold blockConstruct
  rw [ha1]
  show (applyCrossAttn P FA B.attn2 (B.norm2 (addDT a1 x)) context hs).bind _ = _
  rw [ha2]
  rfl

theorem runBlocks_ok (P : NumOps) (FA : FlashKernel) {c cd h dh inner b n : ℕ}
    (blocks : List (BlockCell c cd h dh inner))
    (hall : blocks.all BlockCell.isPlain = true) (x : DT3 b n c)
    (context : Option (Σ nk : ℕ, DT3 b nk cd)) (hs : context = none → cd = c) :
    ∃ y : DT3 b n c, runBlocks P FA blocks x context hs = .ok y := by
  induction blocks generalizing x with
  | nil => exact ⟨x, rfl⟩
  | cons B rest ih =>
      rw [List.all_cons, Bool.and_eq_true_iff] at hall
      obtain ⟨y, hy⟩ := blockConstruct_ok P FA B hall.1 x context hs
      obtain ⟨z, hz⟩ := ih hall.2 y
      refine ⟨z, ?_⟩
      show (blockConstruct P FA B x context hs).bind _ = _
      rw [hy]
      exact hz

/-- C1: with no mask supplied, `Attention.construct` (constructed with
`dim_head = D`, as `CrossAttention.__init__` does) returns exactly
`matmul(softmax(matmul(q, transpose(k)) * D^-0.5), v)`, softmax over the key
axis; the output has shape `(B', Nq, D)` by its type. -/
theorem c1_attention_unmasked_formula (P : NumOps) {b nq nk d : ℕ}
    (q : DT3 b nq d) (k v : DT3 b nk d) :
    Attention.construct P d q k v none =
      .ok ⟨(q.dtype.promote k.dtype).promote v.dtype, attendSpec P q.data k.data v.data⟩ :=
  rfl

/-- C2: concrete evaluation of the masked generic path. With `q = k = v` of
shape `(1,1,1)` in float32 and an all-True mask, `Attention.construct` raises
`AttributeError` on `self.reshape`: no similarity entry is ever set to the
negative float maximum and no post-softmax weight is produced at all. -/
theorem c2_masked_attention_raises :
    Attention.construct ⟨fun x => x, fun _ => 1, fun x => x⟩ 1
        (⟨DType.f32, fun _ _ _ => 1⟩ : DT3 1 1 1)
        (⟨DType.f32, fun _ _ _ => 1⟩ : DT3 1 1 1)
        (⟨DType.f32, fun _ _ _ => 1⟩ : DT3 1 1 1)
        (some ⟨1, 1, 1, fun _ _ _ => true⟩) =
      .error (.attributeError .attention .reshapeAttr) :=
  rfl

/-- C3: (i) with no mask, `CrossAttention.construct` succeeds on both the
accelerated and the generic path, and its result has the exact shape of the
input (the result type `DT3 b nq qd` equals the input type) and the input's
original element dtype, restored by the final `.to(x_dtype)`; (ii) with a
mask present on the generic path, however, the call propagates the
`AttributeError` from `Attention.construct` instead of returning any tensor
— evaluated here on a concrete float32 input of shape `(1, 1, 1)` with flash
disabled and an all-True mask. -/
theorem c3_output_shape_dtype :
    (∀ (P : NumOps) (FA : FlashKernel) {qd cd h dh : ℕ}
        (A : CrossAttention.Cell qd cd h dh) {b nq nk : ℕ} (x : DT3 b nq qd)
        (ctx : DT3 b nk cd),
      ∃ y : DT3 b nq qd,
        CrossAttention.constructOn P FA A x ctx none = .ok y ∧ y.dtype = x.dtype) ∧
    CrossAttention.constructOn ⟨fun x => x, fun _ => 1, fun x => x⟩
        (fun _ _ _ _ _ q _ _ _ => q)
        (⟨DType.f32, false, fun _ _ => 1, fun _ _ => 1, fun _ _ => 1,
          fun _ _ => 1, fun _ => 0⟩ : CrossAttention.Cell 1 1 1 1)
        (⟨DType.f32, fun _ _ _ => 1⟩ : DT3 1 1 1)
        (⟨DType.f32, fun _ _ _ => 1⟩ : DT3 1 1 1)
        (some ⟨1, 1, 1, fun _ _ _ => true⟩) =
      .error (.attributeError .attention .reshapeAttr) := by
  constructor
  · intros P FA qd cd h dh A b nq nk x ctx
    exact constructOn_none_ok P FA A x ctx
  · rfl

/-- C4: (i) the self-attention call itself never reaches the attention step:
evaluated on a concrete batch of 2·video_length = 2 frames with
`chunk_size = 2`, `CrossFrameAttention.construct` with context absent fails
with the `AttributeError` on `self.reshape`; (ii) the substitution those
lines intend (and perform, were `self.reshape` defined): after
`rearange_frame` / indexing with `[0] * video_length` /
`rearange_frame_back`, the key (and value) tensor entry at batch element `β`
is bit-identical to the computed tensor entry at `β / f * f` — frame 0 of
the group of `f = video_length` frames containing `β` — for every frame,
position and channel. -/
theorem c4_crossframe_reference_substitution :
    (CrossFrameAttention.construct ⟨fun x => x, fun _ => 1, fun x => x⟩
        (fun _ _ _ _ _ q _ _ _ => q) 2
        (⟨DType.f32, false, fun _ _ => 1, fun _ _ => 1, fun _ _ => 1,
          fun _ _ => 1, fun _ => 0⟩ : CrossAttention.Cell 1 1 1 1)
        (⟨DType.f32, fun _ _ _ => 1⟩ : DT3 2 1 1) none none =
      .error (.attributeError .crossFrameAttention .reshapeAttr)) ∧
    (∀ {g f n d : ℕ} (x : TT3 (g * f) n d) (β : Fin (g * f)) (j : Fin n)
        (q : Fin d),
      CrossFrameAttention.frameShare x β j q =
        x ⟨β.val / f * f,
            Nat.lt_of_le_of_lt (Nat.div_mul_le_self _ _) β.isLt⟩ j q) := by
  constructor
  · rfl
  · intros g f n d x β j q
    show x (finPair β.divNat ⟨0, _⟩) j q = _
    congr 1

/-- C5 counterexample to the claim as stated: a self-attention call on a
batch of 1 with the default `unet_chunk_size = 2` fails with
`ZeroDivisionError` — `video_length = 1 // 2 = 0`, then `b // 0` at line 246
— before `self.reshape` is ever read, so this invocation does not fail with
an attribute-resolution error. -/
theorem c5_zero_division_counterexample :
    CrossFrameAttention.construct ⟨fun x => x, fun _ => 1, fun x => x⟩
        (fun _ _ _ _ _ q _ _ _ => q) 2
        (⟨DType.f32, false, fun _ _ => 1, fun _ _ => 1, fun _ _ => 1,
          fun _ _ => 1, fun _ => 0⟩ : CrossAttention.Cell 1 1 1 1)
        (⟨DType.f32, fun _ _ _ => 1⟩ : DT3 1 1 1) none none =
      .error .zeroDivisionError :=
  rfl

/-- C5 amended: every invocation of `CrossFrameAttention.construct` fails
before any attention output is produced, but not always with an
attribute-resolution error. Cross-attention calls, and self-attention calls
whose batch size reaches `unet_chunk_size` (with the chunk size positive),
fail reading the attribute `reshape`, which neither `CrossFrameAttention`
nor its base `CrossAttention` ever defines; self-attention calls with
batch < `unet_chunk_size`, or with `unet_chunk_size = 0`, fail earlier with
`ZeroDivisionError` at the video-length division (line 246, or line 256 for
chunk 0) — both cases are `batch / chunk = 0`. -/
theorem c5_crossframe_always_fails :
    (∀ (P : NumOps) (FA : FlashKernel) (chunk : ℕ) {qd h dh : ℕ}
        (A : CrossAttention.Cell qd qd h dh) {b nq : ℕ} (x : DT3 b nq qd)
        (c : Σ nk : ℕ, DT3 b nk qd) (mask : Option MaskT),
      CrossFrameAttention.construct P FA chunk A x (some c) mask =
        .error (.attributeError .crossFrameAttention .reshapeAttr)) ∧
    (∀ (P : NumOps) (FA : FlashKernel) (chunk : ℕ) {qd h dh : ℕ}
        (A : CrossAttention.Cell qd qd h dh) {b nq : ℕ} (x : DT3 b nq qd)
        (mask : Option MaskT),
      b / chunk = 0 →
        CrossFrameAttention.construct P FA chunk A x none mask =
          .error .zeroDivisionError) ∧
    (∀ (P : NumOps) (FA : FlashKernel) (chunk : ℕ) {qd h dh : ℕ}
        (A : CrossAttention.Cell qd qd h dh) {b nq : ℕ} (x : DT3 b nq qd)
        (mask : Option MaskT),
      b / chunk ≠ 0 →
        CrossFrameAttention.construct P FA chunk A x none mask =
          .error (.attributeError .crossFrameAttention .reshapeAttr)) := by
  refine ⟨?_, ?_, ?_⟩
  · intros P FA chunk qd h dh A b nq x c mask
    exact CrossFrameAttention.cross_raises P FA chunk A x c mask
  · intros P FA chunk qd h dh A b nq x mask hf
    exact CrossFrameAttention.self_zero_div_raises P FA chunk A x mask hf
  · intros P FA chunk qd h dh A b nq x mask hf
    exact CrossFrameAttention.self_attr_raises P FA chunk A x mask hf

/-- C5 witness: the attribute-error arm applied at a concrete self-attention
call with batch 4 and `unet_chunk_size = 2` (so `4 / 2 = 2 ≠ 0`). -/
theorem c5_crossframe_always_fails_witness :
    CrossFrameAttention.construct ⟨fun x => x, fun _ => 1, fun x => x⟩
        (fun _ _ _ _ _ q _ _ _ => q) 2
        (⟨DType.f32, false, fun _ _ => 1, fun _ _ => 1, fun _ _ => 1,
          fun _ _ => 1, fun _ => 0⟩ : CrossAttention.Cell 1 1 1 1)
        (⟨DType.f32, fun _ _ _ => 1⟩ : DT3 4 1 1) none none =
      .error (.attributeError .crossFrameAttention .reshapeAttr) :=
  c5_crossframe_always_fails.2.2 _ _ 2 _ _ none (by decide)

/-- C6: `CrossAttention.forward(x)` with `context` absent computes exactly the
same call as `CrossAttention.forward(x, context=x)`: the `default(context, x)`
resolution substitutes `x` itself, and everything downstream is a pure
function of the resolved context. -/
theorem c6_self_attention_default (P : NumOps) (FA : FlashKernel)
    {qd h dh : ℕ} (A : CrossAttention.Cell qd qd h dh) {b nq : ℕ}
    (x : DT3 b nq qd) (mask : Option MaskT) :
    CrossAttention.construct P FA A x none mask =
      CrossAttention.construct P FA A x (some ⟨nq, x⟩) mask :=
  rfl

/-- C7: amended divisibility guard. For `CrossAttention.construct`, whenever
the query or key sequence length is not a multiple of 16 the accelerated
kernel is never invoked — regardless of the enable flag — and the call takes
the generic `Attention` path (the result is literally the generic-path
computation, independent of the kernel). For `CrossFrameAttention.construct`
the accelerated path is likewise never invoked, but not by falling through:
every call fails before the dispatch is reached — with `ZeroDivisionError`
when a self-attention batch is smaller than `unet_chunk_size` (or the chunk
size is 0), otherwise with the `AttributeError` on `self.reshape`. -/
theorem c7_divisibility_guard :
    (∀ (P : NumOps) (FA : FlashKernel) {qd cd h dh : ℕ}
        (A : CrossAttention.Cell qd cd h dh) {b nq nk : ℕ} (x : DT3 b nq qd)
        (ctx : DT3 b nk cd) (mask : Option MaskT),
      ¬(nq % 16 = 0 ∧ nk % 16 = 0) →
        CrossAttention.constructOn P FA A x ctx mask =
          CrossAttention.genericPath P A x ctx mask) ∧
    (∀ (P : NumOps) (FA : FlashKernel) (chunk : ℕ) {qd h dh : ℕ}
        (A : CrossAttention.Cell qd qd h dh) {b nq : ℕ} (x : DT3 b nq qd)
        (context : Option (Σ nk : ℕ, DT3 b nk qd)) (mask : Option MaskT),
      ∃ e : PyErr,
        CrossFrameAttention.construct P FA chunk A x context mask = .error e) := by
  constructor
  · intros P FA qd cd h dh A b nq nk x ctx mask hdiv
    unfold CrossAttention.constructOn
    rw [if_neg]
    rintro ⟨-, h1, h2, -⟩
    exact hdiv ⟨h1, h2⟩
  · intros P FA chunk qd h dh A b nq x context mask
    cases context with
    | some c => exact ⟨_, CrossFrameAttention.cross_raises P FA chunk A x c mask⟩
    | none =>
        by_cases hf : b / chunk = 0
        · exact ⟨_, CrossFrameAttention.self_zero_div_raises P FA chunk A x mask hf⟩
        · exact ⟨_, CrossFrameAttention.self_attr_raises P FA chunk A x mask hf⟩

/-- C7 witness: the guard applied at a concrete ineligible call — sequence
lengths 1 and 1, neither a multiple of 16, flash flag irrelevant. -/
theorem c7_divisibility_guard_witness :
    CrossAttention.constructOn ⟨fun x => x, fun _ => 1, fun x => x⟩
        (fun _ _ _ _ _ q _ _ _ => q)
        (⟨DType.f32, true, fun _ _ => 1, fun _ _ => 1, fun _ _ => 1,
          fun _ _ => 1, fun _ => 0⟩ : CrossAttention.Cell 1 1 1 1)
        (⟨DType.f32, fun _ _ _ => 1⟩ : DT3 1 1 1)
        (⟨DType.f32, fun _ _ _ => 1⟩ : DT3 1 1 1) none =
      CrossAttention.genericPath ⟨fun x => x, fun _ => 1, fun x => x⟩
        (⟨DType.f32, true, fun _ _ => 1, fun _ _ => 1, fun _ _ => 1,
          fun _ _ => 1, fun _ => 0⟩ : CrossAttention.Cell 1 1 1 1)
        (⟨DType.f32, fun _ _ _ => 1⟩ : DT3 1 1 1)
        (⟨DType.f32, fun _ _ _ => 1⟩ : DT3 1 1 1) none :=
  c7_divisibility_guard.1 _ _ _ _ _ none (by decide)

/-- C7 counterexample to the claim as stated: a `CrossFrameAttention` call
whose query length (3) is not a multiple of 16 does not fall through silently
to the generic `Attention` path — it raises an `AttributeError` instead of
returning any output. -/
theorem c7_fallthrough_counterexample :
    CrossFrameAttention.construct ⟨fun x => x, fun _ => 1, fun x => x⟩
        (fun _ _ _ _ _ q _ _ _ => q) 2
        (⟨DType.f32, false, fun _ _ => 1, fun _ _ => 1, fun _ _ => 1,
          fun _ _ => 1, fun _ => 0⟩ : CrossAttention.Cell 1 1 1 1)
        (⟨DType.f32, fun _ _ _ => 1⟩ : DT3 2 3 1) none none =
      .error (.attributeError .crossFrameAttention .reshapeAttr) :=
  rfl

/-- C9: for every tensor of shape `(B, N, H·D)` (head count dividing the
channel count exactly, expressed by the typed channel count `H*D`), applying
`_rearange_in` and then `_rearange_out` is the identity: same shape (by type)
and the exact original values and dtype. -/
theorem c9_head_roundtrip {b n : ℕ} (h d : ℕ) (x : DT3 b n (h * d)) :
    CrossAttention.rearange_outD h d (CrossAttention.rearange_inD h d x) = x := by
  show DT3.mk x.dtype
      (CrossAttention.rearange_out h d (CrossAttention.rearange_in h d x.data)) = x
  rw [CrossAttention.rearange_out_rearange_in]

/-- C10: (i) every `Attention.construct` call with a mask fails with an
`AttributeError` on `self.reshape` before the softmax is computed, and
(ii) even with `self.reshape` and `self.heads` defined, the discarded
`masked_fill` result leaves the similarity matrix unmasked: the result is the
one the unmasked call produces. -/
theorem c10_mask_branch_dead :
    (∀ (P : NumOps) (dimHead : ℕ) {b nq nk d : ℕ} (q : DT3 b nq d)
        (k v : DT3 b nk d) (m : MaskT),
      Attention.construct P dimHead q k v (some m) =
        .error (.attributeError .attention .reshapeAttr)) ∧
    (∀ (P : NumOps) (dimHead : ℕ) {b nq nk d : ℕ} (q : DT3 b nq d)
        (k v : DT3 b nk d) (m : MaskT),
      Attention.constructIfAttrsDefined P dimHead q k v (some m) =
        Attention.construct P dimHead q k v none) :=
  ⟨by intros; rfl, by intros; rfl⟩

/-- C8: (i) for every `SpatialTransformer` whose blocks are the default
`CrossAttention` kind and whose output projection has all-zero weight and
bias (as `zero_module` forces at construction), `construct(x)` returns
exactly `x`'s values for every input and context: the zeroed projection
annihilates the block stack's contribution and the final residual addition
returns `x`. (ii) However, a `SpatialTransformer` constructed with
`cross_frame_attention=True` — whose output projection is equally zeroed —
raises instead of returning `x`: on a batch of 2 with the default
`unet_chunk_size = 2` the first block's self-attention fails with the
`AttributeError` on `self.reshape` (a batch below the chunk size would fail
with `ZeroDivisionError` instead, equally never returning `x`). -/
theorem c8_zero_init_identity :
    (∀ (P : NumOps) (FA : FlashKernel) {c cd h dh inner b hh w : ℕ}
        (st : STCell c cd h dh inner) (x : DT4 b c hh w)
        (context : Option (Σ nk : ℕ, DT3 b nk cd))
        (hs : context = none → cd = c),
      st.blocks.all BlockCell.isPlain = true →
      st.projOut.W = (fun _ _ => 0) →
      st.projOut.bias = (fun _ => 0) →
      stConstruct P FA st x context hs =
        .ok ⟨st.projOut.dtype.promote x.dtype, x.data⟩) ∧
    stConstruct numOps0 flash0 stFrame0 (⟨DType.f32, fun _ _ _ _ => 5⟩ : DT4 2 1 1 1)
        none (fun _ => rfl) =
      .error (.attributeError .crossFrameAttention .reshapeAttr) := by
  constructor
  · intros P FA c cd h dh inner b hh w st x context hs hall hW hB
    obtain ⟨y, hy⟩ := runBlocks_ok P FA st.blocks hall
        (gridToSeq (conv1x1 st.projIn (st.norm x))) context hs
    unfold stConstruct
    rw [hy]
    show Except.ok (addDT4 (conv1x1 st.projOut (seqToGrid y)) x) = _
    have hdata :
        (addDT4 (conv1x1 st.projOut (seqToGrid y)) x).data = x.data := by
      funext i j l r
      show (∑ cc, st.projOut.W j cc * (seqToGrid y).data i cc l r)
          + st.projOut.bias j + x.data i j l r = x.data i j l r
      rw [hW, hB]
      simp
    show Except.ok (DT4.mk (st.projOut.dtype.promote x.dtype)
        (addDT4 (conv1x1 st.projOut (seqToGrid y)) x).data) = _
    rw [hdata]
  · rfl

/-- C8 witness: the identity applied to a concrete freshly constructed
default-configuration transformer on a concrete input. -/
theorem c8_zero_init_identity_witness :
    stConstruct numOps0 flash0 stPlain0 (⟨DType.f32, fun _ _ _ _ => 7⟩ : DT4 1 1 1 1)
        none (fun _ => rfl) =
      .ok ⟨DType.f32, fun _ _ _ _ => 7⟩ :=
  c8_zero_init_identity.1 numOps0 flash0 stPlain0 _ none (fun _ => rfl) rfl rfl rfl

end Mindone
